import Mathlib

/-!
Shallow embedding of the Shattered Realms MUD core
(shattered_realms/game/{models,colors,levels,npcs,commands,admincommands,
wizcommands}.py and shattered_realms/mud/server.py), together with theorems
settling the specification claims about it.

Python dictionaries are modelled as association lists with the dict
operations (`dlookup`, `dinsert`, `dremove`); `dinsert` overwrites in place,
preserving insertion order, exactly like assignment into a Python dict.
Python exceptions are modelled with `Except PyErr`.  Output is modelled as a
trace of events (`Ev`): `Ev.send k t` is one `send_line` call delivering the
logical line `t` to the session stored under key `k`, and `Ev.setRoom k r`
marks the single room-id mutation performed by a player move (it is emitted
exactly where `session.room_id = dest_id` executes, so trace order shows
where the mutation falls relative to the notification sends).
-/

deriving instance DecidableEq for Except

/-- Python exceptions relevant to this code base. -/
inductive PyErr where
  | attributeError
  | keyError
  | indexError
  deriving DecidableEq, Repr

/-- Lookup in a Python dict modelled as an association list. -/
def dlookup {α : Type} (k : String) : List (String × α) → Option α
  | [] => none
  | (k', v) :: rest => if k' = k then some v else dlookup k rest

/-- Assignment `d[k] = v` into a Python dict: overwrite in place if the key
is present (keeping its position, as CPython dicts do), else append. -/
def dinsert {α : Type} (k : String) (v : α) : List (String × α) → List (String × α)
  | [] => [(k, v)]
  | (k', v') :: rest => if k' = k then (k, v) :: rest else (k', v') :: dinsert k v rest

/-- `d.pop(k, None)`: drop the entry for `k` if present. -/
def dremove {α : Type} (k : String) : List (String × α) → List (String × α)
  | [] => []
  | (k', v') :: rest => if k' = k then rest else (k', v') :: dremove k rest

/-- The keys of a modelled dict are pairwise distinct (always true of a real
Python dict; stated as a hypothesis where theorems need it). -/
def dnodup {α : Type} (l : List (String × α)) : Prop :=
  (l.map Prod.fst).Nodup

instance {α : Type} (l : List (String × α)) : Decidable (dnodup l) := by
  unfold dnodup; infer_instance

/-- Python list indexing `xs[i]`: negative indices count from the end;
anything outside `[-len, len)` raises `IndexError`. -/
def pyGet {α : Type} (xs : List α) (i : Int) : Except PyErr α :=
  let j : Int := if i < 0 then i + xs.length else i
  if 0 ≤ j then
    match xs.get? j.toNat with
    | some x => .ok x
    | none => .error .indexError
  else
    .error .indexError

/-- `str.lower()` (ASCII, as every string this code compares is). -/
def pyLower (s : String) : String :=
  String.mk (s.toList.map Char.toLower)

/-- `str.strip()`: drop leading and trailing whitespace. -/
def pyStrip (s : String) : String :=
  String.mk (((s.toList.dropWhile Char.isWhitespace).reverse.dropWhile
    Char.isWhitespace).reverse)

/-- `str.rstrip()`: drop trailing whitespace. -/
def pyRstrip (s : String) : String :=
  String.mk ((s.toList.reverse.dropWhile Char.isWhitespace).reverse)

/-- `str.startswith(pre)`. -/
def pyStartsWith (s pre : String) : Bool :=
  pre.toList.isPrefixOf s.toList

/-- Accumulator loop behind `str.split()` (split on whitespace runs,
no empty pieces). -/
def pyWordsAux : List Char → List Char → List String
  | [], acc => if acc.isEmpty then [] else [String.mk acc.reverse]
  | c :: cs, acc =>
    if c.isWhitespace then
      if acc.isEmpty then pyWordsAux cs []
      else String.mk acc.reverse :: pyWordsAux cs []
    else pyWordsAux cs (c :: acc)

/-- `str.split()` with no argument. -/
def pyWords (s : String) : List String :=
  pyWordsAux s.toList []

/-- Lexicographic comparison by code point, as Python compares strings. -/
def charListLe : List Char → List Char → Bool
  | [], _ => true
  | _ :: _, [] => false
  | a :: as, b :: bs =>
    if a = b then charListLe as bs else decide (a.toNat < b.toNat)

def strLe (a b : String) : Bool :=
  charListLe a.toList b.toList

/-- `int(s)` for a decimal string with optional sign and surrounding
whitespace; `none` models `ValueError`. -/
def pyInt (s : String) : Option Int :=
  let t := pyStrip s
  let (sign, digits) :=
    if pyStartsWith t "-" then ((-1 : Int), t.drop 1)
    else if pyStartsWith t "+" then ((1 : Int), t.drop 1)
    else ((1 : Int), t)
  if digits ≠ "" ∧ digits.toList.all Char.isDigit then
    some (sign * (digits.toList.foldl (fun a c => a * 10 + (c.toNat - 48)) 0 : Nat))
  else
    none

/-- `str.capitalize()`: first character uppercased, the rest lowercased. -/
def pyCapitalize (s : String) : String :=
  match s.toList with
  | [] => ""
  | c :: cs => String.mk (c.toUpper :: cs.map Char.toLower)

-- ---------------------------------------------------------------------------
-- colors.py
-- ---------------------------------------------------------------------------

def RESET : String := "\x1b[0m"

def STYLES : List (String × String) :=
  [("room_name", "\x1b[1;36m"),
   ("npc_name", "\x1b[1;33m"),
   ("player_name", "\x1b[1;32m"),
   ("system", "\x1b[0;32m"),
   ("error", "\x1b[0;31m"),
   ("banner", "\x1b[1;35m")]

/-- `colorize` from colors.py.  (`if not code` in the source catches both a
missing style and an empty escape code; no style in `STYLES` is empty, so
testing for `none` is equivalent.) -/
def colorize (text style : String) (enabled : Bool) : String :=
  if !enabled then text
  else
    match dlookup style STYLES with
    | none => text
    | some code => code ++ text ++ RESET

-- ---------------------------------------------------------------------------
-- models.py
-- ---------------------------------------------------------------------------

/-- `Room` dataclass. `exits` maps direction name to destination room id. -/
structure Room where
  id : String
  name : String
  description : String
  brief : String
  exits : List (String × String) := []
  sanctuary : Bool := false
  deriving DecidableEq, Repr

/-- `Player` dataclass.  The dataclass itself declares only `name`,
`room_id` and `is_admin`.  The `Option` fields model attributes that the
rest of the code base assigns to or reads from Player objects dynamically
(Python allows that): `none` means the attribute was never assigned, and
reading it raises `AttributeError`.  In the source, only `role` is ever
assigned (in server.py, for the hard-coded admin names, and by
`cmd_setrole`); `xp`, `level`, `hp`, `max_hp`, `stamina` and `max_stamina`
are read by several handlers but assigned nowhere. -/
structure Player where
  name : String
  room_id : String
  is_admin : Bool := false
  role : Option String := none
  xp : Option Int := none
  level : Option Int := none
  hp : Option Int := none
  max_hp : Option Int := none
  stamina : Option Int := none
  max_stamina : Option Int := none
  deriving DecidableEq, Repr

/-- `NPC` dataclass.  `wander_index` is a Python int, hence `Int`. -/
structure NPC where
  id : String
  name : String
  description : String
  room_id : String
  home_id : String
  tethered : Bool := false
  wander_mode : String := "none"
  wander_path : List String := []
  wander_index : Int := 0
  aggro : Int := 0
  deriving DecidableEq, Repr

/-- A `ClientSession` as seen by the command/NPC code: its player reference
(modelled by the registry key the player was stored under) and its color
preference.  The transport handle is not modelled. -/
structure Sess where
  playerKey : Option String := none
  color_enabled : Bool := true
  deriving DecidableEq, Repr

/-- The `World` registry: rooms, players (by lowercased name), sessions
(by lowercased name) and NPCs (by id). -/
structure World where
  rooms : List (String × Room) := []
  players : List (String × Player) := []
  sessions : List (String × Sess) := []
  npcs : List (String × NPC) := []
  deriving DecidableEq, Repr

/-- `World.add_room`. -/
def add_room (w : World) (r : Room) : World :=
  { w with rooms := dinsert r.id r w.rooms }

/-- `World.get_room`: raises `KeyError` for an unknown id. -/
def get_room (w : World) (room_id : String) : Except PyErr Room :=
  match dlookup room_id w.rooms with
  | none => .error .keyError
  | some r => .ok r

/-- `World.add_player`: stores under the lowercased name, unconditionally. -/
def add_player (w : World) (p : Player) : World :=
  { w with players := dinsert (pyLower p.name) p w.players }

/-- `World.remove_player`. -/
def remove_player (w : World) (name : String) : World :=
  { w with players := dremove (pyLower name) w.players }

/-- `World.add_session`: stores under the lowercased name, unconditionally. -/
def add_session (w : World) (name : String) (s : Sess) : World :=
  { w with sessions := dinsert (pyLower name) s w.sessions }

/-- `World.remove_session`. -/
def remove_session (w : World) (name : String) : World :=
  { w with sessions := dremove (pyLower name) w.sessions }

/-- `session.player`: resolve the session's player reference in the
registry.  (In Python the session holds a direct object reference; keying
through the registry is observationally the same as long as the entry the
player was registered under has not been overwritten or removed.) -/
def playerOf (w : World) (s : Sess) : Option Player :=
  match s.playerKey with
  | none => none
  | some pk => dlookup pk w.players

/-- The `room_id` property of `ClientSession`: the player's room when a
player exists, else the fixed default. -/
def roomIdOf (w : World) (s : Sess) : String :=
  match playerOf w s with
  | none => "lobby"
  | some p => p.room_id

/-- The `room_id` setter of `ClientSession`: writes `player.room_id` when a
player exists, otherwise does nothing. -/
def setRoomId (w : World) (s : Sess) (value : String) : World :=
  match s.playerKey with
  | none => w
  | some pk =>
    match dlookup pk w.players with
    | none => w
    | some p => { w with players := dinsert pk { p with room_id := value } w.players }

/-- `World.sessions_in_room`: sessions whose current room matches. -/
def sessions_in_room (w : World) (room_id : String) : List (String × Sess) :=
  w.sessions.filter (fun kv => roomIdOf w kv.2 = room_id)

/-- `World.players_in_room`. -/
def players_in_room (w : World) (room_id : String) : List Player :=
  (w.players.map Prod.snd).filter (fun p => p.room_id = room_id)

/-- `World.add_npc`. -/
def add_npc (w : World) (n : NPC) : World :=
  { w with npcs := dinsert n.id n w.npcs }

/-- `World.npcs_in_room`. -/
def npcs_in_room (w : World) (room_id : String) : List NPC :=
  (w.npcs.map Prod.snd).filter (fun n => n.room_id = room_id)

/-- `ClientSession.is_admin` from server.py:
`return self.player and self.player.role == "admin"`.
A session without a player short-circuits to a falsy value; a player whose
`role` attribute was never assigned raises `AttributeError`. -/
def is_admin (w : World) (s : Sess) : Except PyErr Bool :=
  match playerOf w s with
  | none => .ok false
  | some p =>
    match p.role with
    | none => .error .attributeError
    | some r => .ok (r = "admin")

-- ---------------------------------------------------------------------------
-- levels.py
-- ---------------------------------------------------------------------------

/-- The `LEVEL_XP` dict: XP required to reach a level; `none` outside the
keys 1..30 (indexing there raises `KeyError`). -/
def LEVEL_XP : Int → Option Int
  | 1 => some 0
  | 2 => some 100
  | 3 => some 250
  | 4 => some 450
  | 5 => some 700
  | 6 => some 1000
  | 7 => some 1400
  | 8 => some 1850
  | 9 => some 2350
  | 10 => some 2900
  | 11 => some 3500
  | 12 => some 4150
  | 13 => some 4850
  | 14 => some 5600
  | 15 => some 6400
  | 16 => some 7250
  | 17 => some 8150
  | 18 => some 9100
  | 19 => some 10100
  | 20 => some 11200
  | 21 => some 12400
  | 22 => some 13700
  | 23 => some 15100
  | 24 => some 16600
  | 25 => some 18200
  | 26 => some 19900
  | 27 => some 21700
  | 28 => some 23600
  | 29 => some 25600
  | 30 => some 27700
  | _ => none

def MAX_LEVEL : Int := 30

/-- The attributes `apply_level_up` reads and writes on its (duck-typed)
argument.  `levels.py` works on any object carrying these fields. -/
structure PlayerStats where
  name : String
  level : Int
  xp : Int
  hp : Int
  max_hp : Int
  stamina : Int
  max_stamina : Int
  deriving DecidableEq, Repr

/-- `can_level_up` from levels.py.  `LEVEL_XP[next_level]` raises `KeyError`
when `player.level + 1` is not a table key (possible only for levels
outside 0..29, since the `MAX_LEVEL` guard already returned `False` for
levels ≥ 30). -/
def can_level_up (p : PlayerStats) : Except PyErr Bool :=
  if p.level ≥ MAX_LEVEL then .ok false
  else
    match LEVEL_XP (p.level + 1) with
    | none => .error .keyError
    | some t => .ok (decide (t ≤ p.xp))

/-- One pass of the `while` body of `apply_level_up`: bump the level, grow
the stat caps, heal to full.  (The narrative `print` goes to the server
console, not to any session, and is not part of the modelled output.) -/
def level_up_once (p : PlayerStats) : PlayerStats :=
  { p with
    level := p.level + 1
    max_hp := p.max_hp + 5
    hp := p.max_hp + 5
    max_stamina := p.max_stamina + 2
    stamina := p.max_stamina + 2 }

/-- `apply_level_up` from levels.py: repeat `level_up_once` while
`can_level_up` holds. -/
def apply_level_up (p : PlayerStats) : Except PyErr PlayerStats :=
  match h : can_level_up p with
  | .ok true => apply_level_up (level_up_once p)
  | .ok false => .ok p
  | .error e => .error e
termination_by (MAX_LEVEL - p.level).toNat
decreasing_by
  have hl : p.level < MAX_LEVEL := by
    by_contra hc
    unfold can_level_up at h
    rw [if_pos (by omega)] at h
    exact Bool.false_ne_true (Except.ok.inj h)
  simp only [level_up_once]
  omega

/-- `player.xp += amount` as a pure operation on the stats record. -/
def grant (p : PlayerStats) (amount : Int) : PlayerStats :=
  { p with xp := p.xp + amount }

/-- `apply_level_up` applied to a `Player` dataclass object, as
`cmd_addxp` does.  The dataclass declares none of the attributes the
function uses, so on every Player object this code base actually creates
the first attribute read (`player.level` inside `can_level_up`) raises
`AttributeError`; when all the attributes happen to be present, the loop
coincides with `apply_level_up` on the gathered `PlayerStats`.  (If only
some attributes are present Python would fault at the first missing read
inside the loop; that distinction never arises in this code base and is
collapsed to `AttributeError` here.) -/
def apply_level_up_obj (p : Player) : Except PyErr Player :=
  match p.level, p.xp, p.hp, p.max_hp, p.stamina, p.max_stamina with
  | some l, some x, some hh, some mh, some st, some ms =>
    match apply_level_up ⟨p.name, l, x, hh, mh, st, ms⟩ with
    | .error e => .error e
    | .ok q =>
      .ok { p with
              level := some q.level, xp := some q.xp,
              hp := some q.hp, max_hp := some q.max_hp,
              stamina := some q.stamina, max_stamina := some q.max_stamina }
  | _, _, _, _, _, _ => .error .attributeError

-- ---------------------------------------------------------------------------
-- npcs.py (movement tick; the YAML loader is file I/O and is not modelled)
-- ---------------------------------------------------------------------------

/-- `Ev`: the observable effects of a handler or tick.
`send k t` is `sessions[k].send_line(t)`; `setRoom k r` marks the room-id
mutation of the session stored under `k` (see the file header). -/
inductive Ev where
  | send (sessionKey : String) (line : String)
  | setRoom (sessionKey : String) (roomId : String)
  deriving DecidableEq, Repr

/-- `_move_npc_to` from npcs.py.  Returns the updated world, the updated
NPC object, and the notification trace.  A move to the NPC's current room
or to an unregistered room id is silently discarded before any
notification is sent. -/
def move_npc_to (w : World) (npc : NPC) (dest_id : String) :
    World × NPC × List Ev :=
  if dest_id = npc.room_id then (w, npc, [])
  else
    match dlookup dest_id w.rooms with
    | none => (w, npc, [])
    | some _ =>
      let old_room_id := npc.room_id
      let leaves := (sessions_in_room w old_room_id).map
        (fun kv => Ev.send kv.1
          (colorize npc.name "npc_name" kv.2.color_enabled ++ " leaves the room."))
      let npc' := { npc with room_id := dest_id }
      let w' := { w with npcs := dinsert npc.id npc' w.npcs }
      let enters := (sessions_in_room w' npc'.room_id).map
        (fun kv => Ev.send kv.1
          (colorize npc.name "npc_name" kv.2.color_enabled ++ " enters the room."))
      (w', npc', leaves ++ enters)

/-- `_npc_move_along_path` from npcs.py: reset a cursor that ran past the
end, index the path (Python indexing: a negative cursor below `-len`
raises `IndexError`), advance the cursor modulo the path length, then try
the move. -/
def npc_move_along_path (w : World) (npc : NPC) :
    Except PyErr (World × NPC × List Ev) :=
  if npc.wander_path = [] then .ok (w, npc, [])
  else
    let idx : Int :=
      if npc.wander_index ≥ (npc.wander_path.length : Int) then 0
      else npc.wander_index
    match pyGet npc.wander_path idx with
    | .error e => .error e
    | .ok dest_id =>
      let npc' := { npc with wander_index := (idx + 1) % (npc.wander_path.length : Int) }
      let w' := { w with npcs := dinsert npc.id npc' w.npcs }
      .ok (move_npc_to w' npc' dest_id)

/-- `_npc_move_global` from npcs.py.  `random.choice` over the exit values
is modelled by the oracle `pick`: the chosen exit is entry
`pick % length` of the room's exit values, so quantifying over `pick`
quantifies over every possible random choice. -/
def npc_move_global (w : World) (npc : NPC) (pick : Nat) :
    World × NPC × List Ev :=
  match dlookup npc.room_id w.rooms with
  | none => (w, npc, [])
  | some room =>
    if room.exits = [] then (w, npc, [])
    else
      let vals := room.exits.map Prod.snd
      let dest_id := vals.getD (pick % vals.length) ""
      move_npc_to w npc dest_id

/-- The per-NPC body of `npc_tick`: skip tethered NPCs and wander mode
`none` (and any unrecognized mode), else dispatch on the normalized
wander mode. -/
def npc_step (w : World) (npc : NPC) (pick : Nat) :
    Except PyErr (World × NPC × List Ev) :=
  if npc.tethered then .ok (w, npc, [])
  else
    let mode := pyLower (if npc.wander_mode = "" then "none" else npc.wander_mode)
    if mode = "none" then .ok (w, npc, [])
    else if mode = "path" then npc_move_along_path w npc
    else if mode = "global" then .ok (npc_move_global w npc pick)
    else .ok (w, npc, [])

/-- `npc_tick` from npcs.py: iterate the per-NPC step over a snapshot of
the NPC dict.  `pickFn` supplies the random choice for each NPC by id. -/
def npc_tick (w : World) (pickFn : String → Nat) :
    Except PyErr (World × List Ev) :=
  w.npcs.foldlM
    (fun (acc : World × List Ev) kv => do
      let (w', _, evs) ← npc_step acc.1 kv.2 (pickFn kv.1)
      pure (w', acc.2 ++ evs))
    (w, [])

-- ---------------------------------------------------------------------------
-- commands.py / wizcommands.py / admincommands.py
-- ---------------------------------------------------------------------------

/-- Insert a string into an already-sorted list (helper for `sorted`). -/
def insertSorted (x : String) : List String → List String
  | [] => [x]
  | y :: ys => if strLe x y then x :: y :: ys else y :: insertSorted x ys

/-- Python `sorted` on a list of strings. -/
def sortStrings (xs : List String) : List String :=
  xs.foldr insertSorted []

/-- An apostrophe, spelled by code point. -/
def apos : String := (Char.ofNat 39).toString

/-- Handlers yield the updated world, the output trace, and their Python
return value (`none` for `None`, `some false` for the close signal). -/
abbrev CmdResult := Except PyErr (World × List Ev × Option Bool)

/-- `_show_room_occupants`: other named players in the room (one combined
line), then the NPCs.  Every line this helper produces goes to the looking
session itself, so it is modelled as the list of lines, which the caller
sends to its own key in order. -/
def show_room_occupants (w : World) (k : String) (s : Sess) : List String :=
  let other_players :=
    (sessions_in_room w (roomIdOf w s)).filterMap (fun kv =>
      if kv.1 = k then none
      else
        match playerOf w kv.2 with
        | none => none
        | some p => some p.name)
  let playerLines :=
    if other_players.isEmpty then []
    else
      ["Also here: " ++ String.intercalate ", "
        (other_players.map (fun n => colorize n "player_name" s.color_enabled))]
  let npcs := npcs_in_room w (roomIdOf w s)
  let npcLines :=
    if npcs.isEmpty then []
    else
      colorize "You notice:" "system" s.color_enabled ::
      npcs.map (fun npc =>
        if npc.description.isEmpty then
          "  " ++ colorize npc.name "npc_name" s.color_enabled
        else
          "  " ++ colorize npc.name "npc_name" s.color_enabled
            ++ ", " ++ npc.description)
  playerLines ++ npcLines

/-- `format_exits`: the exit lines for a room, directions sorted.  (The
inner `room.exits[direction]` lookup cannot fail because `direction` comes
from the key list; `getD` with a default stands in for that.) -/
def format_exits (w : World) (s : Sess) (room : Room) : List String :=
  if room.exits.isEmpty then [colorize "Exits: none" "system" s.color_enabled]
  else
    colorize "Exits:" "system" s.color_enabled ::
    (sortStrings (room.exits.map Prod.fst)).map (fun direction =>
      let dest_id := (dlookup direction room.exits).getD ""
      let dest_name :=
        match dlookup dest_id w.rooms with
        | none => "(unknown)"
        | some r => r.name
      "  " ++ colorize (pyCapitalize direction) "player_name" s.color_enabled
        ++ " -> " ++ colorize dest_name "room_name" s.color_enabled)

/-- The argument-free branch of `cmd_look`: full description. -/
def cmd_look_room (w : World) (k : String) (s : Sess) : CmdResult :=
  match get_room w (roomIdOf w s) with
  | .error e => .error e
  | .ok room =>
    .ok (w,
      (colorize room.name "room_name" s.color_enabled ::
       pyRstrip room.description ::
       show_room_occupants w k s ++ format_exits w s room).map (Ev.send k),
      none)

/-- `cmd_quicklook` (`ql`): brief description. -/
def cmd_quicklook (w : World) (k : String) (s : Sess) (_args : List String) :
    CmdResult :=
  match get_room w (roomIdOf w s) with
  | .error e => .error e
  | .ok room =>
    .ok (w,
      (colorize room.name "room_name" s.color_enabled ::
       pyRstrip room.brief ::
       show_room_occupants w k s ++ format_exits w s room).map (Ev.send k),
      none)

/-- `_look_target`: prefix-match an NPC in the room, else another named
player in the room, else a miss line.  (The `hasattr` stats block for NPCs
never fires: the NPC dataclass has no `level` or `hp` attribute.  For a
matched player the f-string reads `p.level` and `p.role`, which raises
`AttributeError` when either attribute was never assigned.) -/
def look_target (w : World) (k : String) (s : Sess) (target : String) :
    CmdResult :=
  let target_l := pyStrip (pyLower target)
  if target_l = "" then cmd_look_room w k s
  else
    let room_id := roomIdOf w s
    match (npcs_in_room w room_id).find?
        (fun npc => pyStartsWith (pyLower npc.name) target_l) with
    | some npc =>
      .ok (w,
        Ev.send k (colorize npc.name "npc_name" s.color_enabled) ::
        (if npc.description.isEmpty then [] else [Ev.send k npc.description]),
        none)
    | none =>
      match (sessions_in_room w room_id).find? (fun kv =>
          kv.1 != k &&
          (match playerOf w kv.2 with
           | none => false
           | some p => pyStartsWith (pyLower p.name) target_l)) with
      | some kv =>
        match playerOf w kv.2 with
        | none => .error .attributeError
        | some p =>
          match p.level, p.role with
          | some lv, some r =>
            .ok (w,
              [Ev.send k (colorize p.name "player_name" s.color_enabled),
               Ev.send k (colorize ("Level " ++ toString lv ++ " " ++ r)
                 "system" s.color_enabled)],
              none)
          | _, _ => .error .attributeError
      | none =>
        .ok (w, [Ev.send k (colorize "You don't see that here." "error"
          s.color_enabled)], none)

/-- `cmd_look`: with arguments delegate to the target lookup, else show
the room. -/
def cmd_look (w : World) (k : String) (s : Sess) (args : List String) :
    CmdResult :=
  if args.isEmpty then cmd_look_room w k s
  else look_target w k s (String.intercalate " " args)

/-- `cmd_move`: the room-transition protocol.  On the success path the
trace is: leave notices to the other sessions of the old room, the room-id
mutation, enter notices to the other sessions of the new room, the
confirmation to the mover, then the mover's quick look of the new room. -/
def cmd_move (w : World) (k : String) (s : Sess) (_args : List String)
    (direction : String) : CmdResult :=
  match get_room w (roomIdOf w s) with
  | .error e => .error e
  | .ok room =>
    match dlookup direction room.exits with
    | none =>
      .ok (w, [Ev.send k (colorize "You can't go that way." "error"
        s.color_enabled)], none)
    | some dest_id =>
      match get_room w dest_id with
      | .error _ =>
        .ok (w, [Ev.send k (colorize
          "You feel resistance, as if reality hasn't fully formed that way."
          "error" s.color_enabled)], none)
      | .ok _ =>
        let name :=
          match playerOf w s with
          | some p => p.name
          | none => "Someone"
        let leaves := (sessions_in_room w (roomIdOf w s)).filterMap (fun kv =>
          if kv.1 = k then none
          else some (Ev.send kv.1 (colorize name "player_name"
            kv.2.color_enabled ++ " leaves the room.")))
        let mark :=
          if (playerOf w s).isSome then [Ev.setRoom k dest_id] else []
        let w' := setRoomId w s dest_id
        let enters := (sessions_in_room w' (roomIdOf w' s)).filterMap (fun kv =>
          if kv.1 = k then none
          else some (Ev.send kv.1 (colorize name "player_name"
            kv.2.color_enabled ++ " enters the room.")))
        let move_text := colorize ("You go " ++ direction ++ ".") "system"
          s.color_enabled
        match cmd_quicklook w' k s [] with
        | .error e => .error e
        | .ok (w'', evs, _) =>
          .ok (w'', leaves ++ mark ++ enters ++ Ev.send k move_text :: evs, none)

/-- `cmd_quit`: farewell line, then the close signal (`return False`). -/
def cmd_quit (w : World) (k : String) (s : Sess) (_args : List String) :
    CmdResult :=
  .ok (w, [Ev.send k (colorize "The world fades to black as you step away..."
    "system" s.color_enabled)], some false)

/-- `cmd_say`: speak to everyone in the room (the speaker included, with a
different line). -/
def cmd_say (w : World) (k : String) (s : Sess) (args : List String) :
    CmdResult :=
  if args.isEmpty then
    .ok (w, [Ev.send k (colorize "Say what?" "error" s.color_enabled)], none)
  else
    let msg_text := String.intercalate " " args
    let name :=
      match playerOf w s with
      | some p => p.name
      | none => "Someone"
    .ok (w,
      (sessions_in_room w (roomIdOf w s)).map (fun kv =>
        if kv.1 = k then
          Ev.send kv.1 (colorize "You say:" "system" s.color_enabled
            ++ " " ++ msg_text)
        else
          Ev.send kv.1 (colorize name "player_name" kv.2.color_enabled
            ++ " says: " ++ msg_text)),
      none)

/-- `cmd_who`: all registered players. -/
def cmd_who (w : World) (k : String) (s : Sess) (_args : List String) :
    CmdResult :=
  let players := w.players.map Prod.snd
  if players.isEmpty then
    .ok (w, [Ev.send k (colorize "You seem to be alone in these realms."
      "system" s.color_enabled)], none)
  else
    .ok (w,
      Ev.send k (colorize "Players currently wandering the Shattered Realms:"
        "system" s.color_enabled) ::
      players.map (fun p => Ev.send k ("  " ++
        colorize p.name "player_name" s.color_enabled)),
      none)

/-- `cmd_color`: show or set the per-session color preference. -/
def cmd_color (w : World) (k : String) (s : Sess) (args : List String) :
    CmdResult :=
  if args.isEmpty then
    let status := if s.color_enabled then "on" else "off"
    .ok (w, [Ev.send k (colorize ("Color is currently " ++ status ++ ".")
      "system" s.color_enabled)], none)
  else
    let choice := pyLower (args.headD "")
    if choice = "on" || choice = "yes" || choice = "true" then
      let s' := { s with color_enabled := true }
      .ok ({ w with sessions := dinsert k s' w.sessions },
        [Ev.send k (colorize "Color has been turned on." "system" true)], none)
    else if choice = "off" || choice = "no" || choice = "false" then
      let s' := { s with color_enabled := false }
      .ok ({ w with sessions := dinsert k s' w.sessions },
        [Ev.send k "Color has been turned off."], none)
    else
      .ok (w, [Ev.send k (colorize "Usage: color [on|off]" "error"
        s.color_enabled)], none)

/-- `cmd_stats`: the five stat lines are built before any send, so a
missing attribute (or a missing player) raises before anything is sent. -/
def cmd_stats (w : World) (k : String) (s : Sess) (_args : List String) :
    CmdResult :=
  match playerOf w s with
  | none => .error .attributeError
  | some p =>
    match p.level, p.xp, p.hp, p.max_hp, p.stamina, p.max_stamina with
    | some lv, some x, some hh, some mh, some st, some ms =>
      .ok (w,
        (["Name: " ++ p.name,
          "Level: " ++ toString lv,
          "XP: " ++ toString x ++ " / " ++
            (match LEVEL_XP (lv + 1) with
             | some t => toString t
             | none => "MAX"),
          "Health: " ++ toString hh ++ " / " ++ toString mh,
          "Stamina: " ++ toString st ++ " / " ++ toString ms]).map
          (fun line => Ev.send k (colorize line "system" s.color_enabled)),
        none)
    | _, _, _, _, _, _ => .error .attributeError

/-- `cmd_role`: show the player's role (`"unknown"` with no player; an
unassigned `role` attribute raises `AttributeError`). -/
def cmd_role (w : World) (k : String) (s : Sess) (_args : List String) :
    CmdResult :=
  match playerOf w s with
  | none =>
    .ok (w, [Ev.send k (colorize "Your role is: unknown" "system"
      s.color_enabled)], none)
  | some p =>
    match p.role with
    | none => .error .attributeError
    | some r =>
      .ok (w, [Ev.send k (colorize ("Your role is: " ++ r) "system"
        s.color_enabled)], none)

/-- Store the (mutated) player object back under the key the session's
reference points at; with no player reference this is unreachable. -/
def savePlayer (w : World) (s : Sess) (p : Player) : World :=
  match s.playerKey with
  | none => w
  | some pk => { w with players := dinsert pk p w.players }

/-- `cmd_setrole` (admincommands.py). -/
def cmd_setrole (w : World) (k : String) (s : Sess) (args : List String) :
    CmdResult :=
  match is_admin w s with
  | .error e => .error e
  | .ok adm =>
    if !adm then
      .ok (w, [Ev.send k (colorize "You lack the authority to reshape destiny."
        "error" s.color_enabled)], none)
    else if args.length != 2 then
      .ok (w, [Ev.send k "Usage: setrole <name> <role>"], none)
    else
      let target_name := args.headD ""
      let new_role := pyLower (args.getD 1 "")
      if !(["player", "wizard", "gm", "admin"].contains new_role) then
        .ok (w, [Ev.send k "Invalid role. Choose: player, wizard, gm, admin."],
          none)
      else
        let key := pyLower target_name
        match dlookup key w.players with
        | none => .ok (w, [Ev.send k ("No such player: " ++ target_name)], none)
        | some target =>
          .ok ({ w with players :=
                  dinsert key { target with role := some new_role } w.players },
            [Ev.send k ("Role of " ++ target_name ++ " set to "
              ++ new_role ++ ".")], none)

/-- `cmd_addxp` (admincommands.py): rebuke non-admins; non-numeric input is
a caught `ValueError`; otherwise `player.xp += amount` (an attribute read,
then a write) followed by the leveling pass and a confirmation that reads
`player.level`. -/
def cmd_addxp (w : World) (k : String) (s : Sess) (args : List String) :
    CmdResult :=
  match is_admin w s with
  | .error e => .error e
  | .ok adm =>
    if !adm then
      .ok (w, [Ev.send k (colorize "No." "error" s.color_enabled)], none)
    else if args.isEmpty then
      .ok (w, [Ev.send k "Usage: addxp <amount>"], none)
    else
      match pyInt (args.headD "") with
      | none => .ok (w, [Ev.send k "XP must be a number."], none)
      | some amount =>
        match playerOf w s with
        | none => .error .attributeError
        | some p =>
          match p.xp with
          | none => .error .attributeError
          | some x =>
            let p1 := { p with xp := some (x + amount) }
            let w1 := savePlayer w s p1
            match apply_level_up_obj p1 with
            | .error e => .error e
            | .ok p2 =>
              let w2 := savePlayer w1 s p2
              match p2.level with
              | none => .error .attributeError
              | some lv =>
                .ok (w2, [Ev.send k (colorize ("Gave " ++ toString amount
                  ++ " XP. You are now level " ++ toString lv ++ ".")
                  "system" s.color_enabled)], none)

/-- `cmd_killnpc` (admincommands.py): resolve by exact id, else first
case-insensitive name-prefix match in registry order; announce to every
session in the NPC's room (the actor's color preference is used for all of
them, as in the source), remove the NPC, confirm to the actor. -/
def cmd_killnpc (w : World) (k : String) (s : Sess) (args : List String) :
    CmdResult :=
  match is_admin w s with
  | .error e => .error e
  | .ok adm =>
    if !adm then
      .ok (w, [Ev.send k (colorize "Only a true Admin can rewrite legends."
        "error" s.color_enabled)], none)
    else if args.isEmpty then
      .ok (w, [Ev.send k "Usage: killnpc <id-or-name-prefix>"], none)
    else
      let target_arg := pyLower (String.intercalate " " args)
      let target_npc :=
        match dlookup target_arg w.npcs with
        | some n => some n
        | none =>
          (w.npcs.map Prod.snd).find?
            (fun n => pyStartsWith (pyLower n.name) target_arg)
      match target_npc with
      | none =>
        .ok (w, [Ev.send k ("No NPC found matching " ++ apos ++ target_arg
          ++ apos ++ ".")], none)
      | some npc =>
        let name_c := colorize npc.name "npc_name" s.color_enabled
        let evs := (sessions_in_room w npc.room_id).map (fun kv =>
          Ev.send kv.1 (name_c ++ " flickers and vanishes from the realm."))
        .ok ({ w with npcs := dremove npc.id w.npcs },
          evs ++ [Ev.send k (npc.name
            ++ " has been removed from the Shattered Realms.")], none)

-- ---------------------------------------------------------------------------
-- The dispatch tables and handle_command
-- ---------------------------------------------------------------------------

def DIRECTION_ALIASES : List (String × String) :=
  [("n", "north"), ("s", "south"), ("e", "east"),
   ("w", "west"), ("u", "up"), ("d", "down")]

def VALID_DIRECTIONS : List String :=
  ["north", "south", "east", "west", "up", "down"]

/-- The closed set of verbs in the dispatch tables. -/
inductive Cmd where
  | look | ql | quit | say | who | color | stats | role
  | setrole | addxp | killnpc
  deriving DecidableEq, Repr

def BASE_COMMANDS : List (String × Cmd) :=
  [("look", .look), ("ql", .ql), ("quit", .quit), ("exit", .quit),
   ("say", .say), ("who", .who), ("color", .color), ("stats", .stats),
   ("role", .role)]

/-- wizcommands.py: the wizard table is empty. -/
def WIZ_COMMANDS : List (String × Cmd) := []

def ADMIN_COMMANDS : List (String × Cmd) :=
  [("setrole", .setrole), ("addxp", .addxp), ("killnpc", .killnpc)]

/-- The merged dict of base, wizard and administrative verbs (later tables
override earlier keys, as Python dict merging does; there are no
collisions in practice). -/
def COMMANDS : List (String × Cmd) :=
  (BASE_COMMANDS ++ WIZ_COMMANDS ++ ADMIN_COMMANDS).foldl
    (fun d kv => dinsert kv.1 kv.2 d) []

/-- Invoke the handler a dispatch-table entry stands for. -/
def run_command : Cmd → World → String → Sess → List String → CmdResult
  | .look => cmd_look
  | .ql => fun w k s args => cmd_quicklook w k s args
  | .quit => cmd_quit
  | .say => cmd_say
  | .who => cmd_who
  | .color => cmd_color
  | .stats => cmd_stats
  | .role => cmd_role
  | .setrole => cmd_setrole
  | .addxp => cmd_addxp
  | .killnpc => cmd_killnpc

/-- `handle_command` from commands.py: trim, route empty input to the
quick look, resolve direction aliases, dispatch directions to `cmd_move`,
look the verb up in the merged table, and map a handler's Python return
value to the keep-open boolean (`False` closes, anything else stays
open). -/
def handle_command (w : World) (k : String) (s : Sess) (line : String) :
    Except PyErr (World × List Ev × Bool) :=
  let text := pyStrip line
  if text = "" then
    match cmd_quicklook w k s [] with
    | .error e => .error e
    | .ok (w', evs, _) => .ok (w', evs, true)
  else
    match pyWords text with
    | [] =>
      match cmd_quicklook w k s [] with
      | .error e => .error e
      | .ok (w', evs, _) => .ok (w', evs, true)
    | verb0 :: args =>
      let verb1 := pyLower verb0
      let verb :=
        match dlookup verb1 DIRECTION_ALIASES with
        | some v => v
        | none => verb1
      if VALID_DIRECTIONS.contains verb then
        match cmd_move w k s args verb with
        | .error e => .error e
        | .ok (w', evs, _) => .ok (w', evs, true)
      else
        match dlookup verb COMMANDS with
        | none =>
          .ok (w, [Ev.send k (colorize "You mutter something unintelligible."
            "error" s.color_enabled)], true)
        | some c =>
          match run_command c w k s args with
          | .error e => .error e
          | .ok (w', evs, r) =>
            match r with
            | some b => .ok (w', evs, b)
            | none => .ok (w', evs, true)

-- ---------------------------------------------------------------------------
-- server.py: the naming loop
-- ---------------------------------------------------------------------------

def NAME_PROMPT_A : String := "By what name are you known in the Shattered Realms?"

def NAME_PROMPT_B : String := "> "

/-- `ClientSession._ask_name`: prompt until a usable name arrives.  The
client's input is the list of lines it will send; an exhausted list is
end-of-stream, on which the loop returns the fallback name immediately —
without the already-in-use check the accepted-name path performs.
Returns (lines sent to this client, resulting name). -/
def ask_name (w : World) : List String → List String × String
  | [] => ([NAME_PROMPT_A, NAME_PROMPT_B], "Wanderer")
  | line :: rest =>
    let raw := pyStrip line
    let name := String.mk ((raw.toList.filter Char.isAlphanum).take 16)
    if name = "" then
      let r := ask_name w rest
      (NAME_PROMPT_A :: NAME_PROMPT_B ::
        "That name rings hollow. Try something else." :: r.1, r.2)
    else if (dlookup (pyLower name) w.players).isSome then
      let r := ask_name w rest
      (NAME_PROMPT_A :: NAME_PROMPT_B ::
        "That name is already in use. Choose another." :: r.1, r.2)
    else
      ([NAME_PROMPT_A, NAME_PROMPT_B], name)

-- ---------------------------------------------------------------------------
-- Concrete fixtures (worlds the server's login path actually builds: a
-- two-room map, and players created by `Player(name=name, room_id="lobby")`
-- with a session registered under the lowercased name)
-- ---------------------------------------------------------------------------

def roomLobby : Room :=
  { id := "lobby", name := "The Lobby", description := "A quiet lobby.",
    brief := "Lobby.", exits := [("north", "hall")] }

def roomHall : Room :=
  { id := "hall", name := "The Hall", description := "A long hall.",
    brief := "Hall.", exits := [("south", "lobby")] }

/-- A freshly-connected ordinary player: the dataclass constructor assigns
no `role` (server.py assigns one only to the hard-coded admin names). -/
def pBob : Player := { name := "Bob", room_id := "lobby" }

def sBob : Sess := { playerKey := some "bob" }

def wBob : World :=
  { rooms := [("lobby", roomLobby), ("hall", roomHall)],
    players := [("bob", pBob)],
    sessions := [("bob", sBob)] }

/-- A session whose player got the hard-coded `role = "admin"` assignment
(the only way the source produces an admin); its `xp`, `level` and stat
attributes are still unassigned because nothing in the source assigns
them. -/
def pEddie : Player := { name := "Eddie", room_id := "lobby", role := some "admin" }

def sEddie : Sess := { playerKey := some "eddie" }

def wEddie : World :=
  { rooms := [("lobby", roomLobby), ("hall", roomHall)],
    players := [("eddie", pEddie)],
    sessions := [("eddie", sEddie)] }

/-- A level-1 stats record as the leveling collaborator expects. -/
def pStats1 : PlayerStats :=
  { name := "a", level := 1, xp := 0, hp := 10, max_hp := 10,
    stamina := 10, max_stamina := 10 }

/-- The same record at the maximum level. -/
def pStats30 : PlayerStats := { pStats1 with level := 30 }

/-- A world whose lobby has a dangling exit (tolerated at load time; the
move handler turns it into a runtime error path). -/
def wDang : World :=
  { rooms := [("lobby",
      { id := "lobby", name := "The Lobby", description := "A quiet lobby.",
        brief := "Lobby.", exits := [("east", "void")] })],
    players := [("bob", pBob)],
    sessions := [("bob", sBob)] }

/-- A second connected player, already in the hall. -/
def pBo : Player := { name := "Bo", room_id := "hall" }

def sBo : Sess := { playerKey := some "bo" }

/-- Two sessions: Bob in the lobby, Bo in the hall. -/
def wTwo : World :=
  { rooms := [("lobby", roomLobby), ("hall", roomHall)],
    players := [("bob", pBob), ("bo", pBo)],
    sessions := [("bob", sBob), ("bo", sBo)] }

/-- A roaming path NPC whose cursor has been set below `-len(path)`
(unreachable from the loader, which always starts the cursor at 0, but in
the function's domain). -/
def npcNeg : NPC :=
  { id := "g", name := "Ghost", description := "", room_id := "lobby",
    home_id := "lobby", tethered := false, wander_mode := "path",
    wander_path := ["a", "b", "c"], wander_index := -4 }

/-- The same NPC with a cursor that ran past the end of the path. -/
def npcBig : NPC := { npcNeg with wander_index := 5 }

/-- A tethered NPC (never moves regardless of wander mode). -/
def npcTether : NPC :=
  { id := "t", name := "Guard", description := "", room_id := "lobby",
    home_id := "lobby", tethered := true, wander_mode := "global" }

/-- Shorthand for the value a path NPC holds after one step that resolved
to `dest`: moved there (it may already be there) with the cursor advanced
cyclically. -/
def npcAfterPathStep (n : NPC) (dest : String) : NPC :=
  { n with
    room_id := dest
    wander_index := (n.wander_index + 1) % (n.wander_path.length : Int) }

def roomA : Room :=
  { id := "a", name := "Room A", description := "A.", brief := "A." }

def roomB : Room :=
  { id := "b", name := "Room B", description := "B.", brief := "B." }

def roomC : Room :=
  { id := "c", name := "Room C", description := "C.", brief := "C." }

/-- A path wanderer over rooms a, b, c, cursor at 0. -/
def npcWalker : NPC :=
  { id := "p1", name := "Pilgrim", description := "", room_id := "lobby",
    home_id := "lobby", tethered := false, wander_mode := "path",
    wander_path := ["a", "b", "c"], wander_index := 0 }

/-- A world holding only the path wanderer and its rooms. -/
def wWalk : World :=
  { rooms := [("lobby", roomLobby), ("a", roomA), ("b", roomB), ("c", roomC)],
    npcs := [("p1", npcWalker)] }

-- ---------------------------------------------------------------------------
-- Theorems
-- ---------------------------------------------------------------------------

/-- C1.  The claim says a non-privileged session invoking a privileged verb
gets exactly one rebuke, with no Registry mutation, no crash and no close
signal.  The code disagrees: `ClientSession.is_admin` reads
`self.player.role`, but the `Player` dataclass declares no `role` field and
the login path assigns one only to three hard-coded names, so for every
ordinary player each privileged verb raises `AttributeError` inside the
role check (before any rebuke), which aborts the command loop and closes
the connection.  Evaluation at such a session, for all three privileged
verbs: the dispatcher propagates the exception instead of producing a
rebuke. -/
theorem setrole_by_default_player_raises :
    handle_command wBob "bob" sBob "setrole Bob admin" = .error .attributeError
    ∧ handle_command wBob "bob" sBob "addxp 100" = .error .attributeError
    ∧ handle_command wBob "bob" sBob "killnpc g" = .error .attributeError := by
  exact ⟨by decide, by decide, by decide⟩

/-- C5.  The claim says `addxp` by an admin with a non-numeric argument is
a user error (one line, no state change) — which holds — and that with a
numeric argument it adds to the acting player's experience and applies the
leveling collaborator.  The code disagrees on the numeric path:
`player.xp += amount` reads `player.xp`, an attribute the `Player`
dataclass does not declare and nothing ever assigns, so the handler raises
`AttributeError` before adding anything.  Evaluation at the only kind of
admin session the source can produce. -/
theorem cmd_addxp_numeric_raises :
    handle_command wEddie "eddie" sEddie "addxp lots"
      = .ok (wEddie, [Ev.send "eddie" "XP must be a number."], true)
    ∧ handle_command wEddie "eddie" sEddie "addxp 100" = .error .attributeError := by
  exact ⟨by decide, by decide⟩

/-- C8.  The claim says the dispatcher returns the keep-open signal for
every input line unless the invoked handler explicitly returns the close
signal.  The empty-line, unknown-verb and quit clauses hold (second
through fourth conjuncts), but the universal claim fails: a handler can
raise instead of returning (here `cmd_role` reading the unassigned
`player.role`), in which case the dispatcher returns nothing at all and
the session's read loop tears the connection down (first conjunct). -/
theorem handle_command_signals_and_crash :
    handle_command wBob "bob" sBob "role" = .error .attributeError
    ∧ handle_command wBob "bob" sBob "xyzzy"
      = .ok (wBob, [Ev.send "bob"
          (colorize "You mutter something unintelligible." "error" true)], true)
    ∧ (∃ evs, handle_command wBob "bob" sBob "   " = .ok (wBob, evs, true))
    ∧ handle_command wBob "bob" sBob "quit"
      = .ok (wBob, [Ev.send "bob"
          (colorize "The world fades to black as you step away..." "system" true)],
        false) := by
  refine ⟨by decide, by decide,
    ⟨[Ev.send "bob" (colorize "The Lobby" "room_name" true),
      Ev.send "bob" "Lobby.",
      Ev.send "bob" (colorize "Exits:" "system" true),
      Ev.send "bob" ("  " ++ colorize "North" "player_name" true ++ " -> "
        ++ colorize "The Hall" "room_name" true)], by decide⟩, by decide⟩

-- ---------------------------------------------------------------------------
-- Dict lemmas
-- ---------------------------------------------------------------------------

theorem dlookup_dinsert_self {α : Type} (k : String) (v : α)
    (l : List (String × α)) : dlookup k (dinsert k v l) = some v := by
  induction l with
  | nil => simp [dinsert, dlookup]
  | cons hd tl ih =>
    by_cases h : hd.1 = k
    · simp [dinsert, dlookup, h]
    · simp [dinsert, dlookup, h, ih]

theorem dlookup_dinsert_ne {α : Type} (k k2 : String) (v : α)
    (l : List (String × α)) (h : k2 ≠ k) :
    dlookup k2 (dinsert k v l) = dlookup k2 l := by
  have hne : k ≠ k2 := fun hh => h hh.symm
  induction l with
  | nil => simp [dinsert, dlookup, hne]
  | cons hd tl ih =>
    obtain ⟨k1, v1⟩ := hd
    by_cases hh : k1 = k
    · subst hh
      simp [dinsert, dlookup, hne]
    · simp [dinsert, dlookup, hh, ih]

/-- C9.  `World.add_player` and `World.add_session` store under the
lowercased name unconditionally: the new entry replaces any existing entry
with the same key, every other entry is untouched, and the operation is a
total function (nothing can raise, and no other registry map changes).
The only uniqueness check in the code lives in `_ask_name`'s loop, and the
end-of-stream fallback returns "Wanderer" without that check — for every
world, including one where "wanderer" is already registered — so a second
fallback login overwrites the first one's registry entries (last
conjunct). -/
theorem registry_overwrite_spec :
    (∀ (w : World) (p : Player),
      dlookup (pyLower p.name) (add_player w p).players = some p
      ∧ (∀ k2, k2 ≠ pyLower p.name →
          dlookup k2 (add_player w p).players = dlookup k2 w.players)
      ∧ (add_player w p).rooms = w.rooms
      ∧ (add_player w p).sessions = w.sessions
      ∧ (add_player w p).npcs = w.npcs)
    ∧ (∀ (w : World) (name : String) (s : Sess),
      dlookup (pyLower name) (add_session w name s).sessions = some s
      ∧ (∀ k2, k2 ≠ pyLower name →
          dlookup k2 (add_session w name s).sessions = dlookup k2 w.sessions)
      ∧ (add_session w name s).players = w.players)
    ∧ (∀ w : World, ask_name w [] = ([NAME_PROMPT_A, NAME_PROMPT_B], "Wanderer"))
    ∧ (∀ (w : World) (p1 p2 : Player), pyLower p1.name = pyLower p2.name →
        dlookup (pyLower p1.name) (add_player (add_player w p1) p2).players
          = some p2) := by
  refine ⟨fun w p => ⟨?_, fun k2 h => ?_, rfl, rfl, rfl⟩,
    fun w name s => ⟨?_, fun k2 h => ?_, rfl⟩,
    fun w => rfl,
    fun w p1 p2 h => ?_⟩
  · exact dlookup_dinsert_self _ _ _
  · exact dlookup_dinsert_ne _ _ _ _ h
  · exact dlookup_dinsert_self _ _ _
  · exact dlookup_dinsert_ne _ _ _ _ h
  · rw [h]
    exact dlookup_dinsert_self _ _ _

/-- Witness for the C9 theorem at concrete inputs: two distinct `Player`
objects both named "Wanderer" (what two end-of-stream logins produce); the
second registration replaces the first, and the fallback name comes back
even though "wanderer" is taken. -/
theorem registry_overwrite_spec_witness :
    dlookup "wanderer"
      (add_player (add_player wBob { name := "Wanderer", room_id := "lobby" })
        { name := "Wanderer", room_id := "hall" }).players
      = some { name := "Wanderer", room_id := "hall" }
    ∧ ask_name (add_player wBob { name := "Wanderer", room_id := "lobby" }) []
      = ([NAME_PROMPT_A, NAME_PROMPT_B], "Wanderer")
    ∧ dlookup "bob"
      (add_player wBob { name := "Wanderer", room_id := "lobby" }).players
      = some pBob := by
  refine ⟨?_, ?_, ?_⟩
  · have h := registry_overwrite_spec.2.2.2 wBob
      { name := "Wanderer", room_id := "lobby" }
      { name := "Wanderer", room_id := "hall" } rfl
    rw [(by decide : ("wanderer" : String)
      = pyLower (Player.name { name := "Wanderer", room_id := "lobby" }))]
    exact h
  · exact registry_overwrite_spec.2.2.1 _
  · have h := (registry_overwrite_spec.1 wBob
      { name := "Wanderer", room_id := "lobby" }).2.1 "bob" (by decide)
    rw [h]
    decide

-- ---------------------------------------------------------------------------
-- Leveling lemmas (C4)
-- ---------------------------------------------------------------------------

theorem apply_level_up_stop (p : PlayerStats) (h : can_level_up p = .ok false) :
    apply_level_up p = .ok p := by
  unfold apply_level_up
  split <;> simp_all

theorem apply_level_up_go (p : PlayerStats) (h : can_level_up p = .ok true) :
    apply_level_up p = apply_level_up (level_up_once p) := by
  conv_lhs => unfold apply_level_up
  split <;> simp_all

/-- The exact effect of the leveling loop when the player's experience
crosses the next `N` thresholds and not the one after: level rises by
exactly `N`, the caps grow linearly, and (when at least one level was
gained) current health and stamina are set to the new caps. -/
theorem apply_level_up_exact (N : Nat) :
    ∀ p : PlayerStats, 0 ≤ p.level → p.level + N ≤ 30 →
    (∀ k : Int, p.level < k → k ≤ p.level + N →
      ∃ t, LEVEL_XP k = some t ∧ t ≤ p.xp) →
    (p.level + (N : Int) = 30 ∨
      ∃ t, LEVEL_XP (p.level + N + 1) = some t ∧ p.xp < t) →
    apply_level_up p = .ok
      { p with
        level := p.level + N
        max_hp := p.max_hp + 5 * N
        hp := if N = 0 then p.hp else p.max_hp + 5 * N
        max_stamina := p.max_stamina + 2 * N
        stamina := if N = 0 then p.stamina else p.max_stamina + 2 * N } := by
  induction N with
  | zero =>
    intro p _ hle _ hstop
    have hcan : can_level_up p = .ok false := by
      unfold can_level_up
      by_cases h30 : p.level ≥ MAX_LEVEL
      · rw [if_pos h30]
      · rw [if_neg h30]
        rcases hstop with h30' | ⟨t, ht, hxp⟩
        · exfalso
          simp only [MAX_LEVEL] at h30
          omega
        · have : p.level + (0 : Nat) + 1 = p.level + 1 := by push_cast; ring
          rw [this] at ht
          rw [ht]
          simp [Int.not_le.mpr hxp]
    rw [apply_level_up_stop p hcan]
    cases p
    simp
  | succ N ih =>
    intro p hpos hle hall hstop
    have hlt : p.level < 30 := by
      have : ((N : Int) + 1) ≥ 1 := by omega
      push_cast at hle
      omega
    obtain ⟨t1, ht1, hxp1⟩ := hall (p.level + 1) (by omega)
      (by push_cast; omega)
    have hcan : can_level_up p = .ok true := by
      unfold can_level_up
      rw [if_neg (by simp only [MAX_LEVEL]; omega), ht1]
      simp [hxp1]
    rw [apply_level_up_go p hcan]
    have hstep := ih (level_up_once p) (by simp [level_up_once]; omega)
      (by simp [level_up_once]; push_cast at hle ⊢; omega)
      (by
        intro k hk1 hk2
        refine hall k (by simp [level_up_once] at hk1; omega) ?_
        simp only [level_up_once] at hk2
        push_cast at hk2 ⊢
        omega)
      (by
        rcases hstop with h30 | ⟨t, ht, hxp⟩
        · left
          simp only [level_up_once]
          push_cast at h30 ⊢
          omega
        · right
          refine ⟨t, ?_, hxp⟩
          rw [← ht]
          congr 1
          simp only [level_up_once]
          push_cast
          ring)
    rw [hstep]
    cases p
    simp only [level_up_once, Except.ok.injEq, PlayerStats.mk.injEq,
      Nat.succ_ne_zero, if_false]
    push_cast
    by_cases hN : N = 0
    · subst hN
      push_cast
      norm_num
    · simp only [hN, if_false]
      norm_num
      omega

/-- C4.  Experience/leveling contract of levels.py, for any record carrying
the attributes the code reads, starting below the maximum level and below
the next threshold: (1) granting 0 experience then leveling changes
nothing; (2) granting enough to cross exactly one threshold raises the
level by exactly 1 and sets health and stamina to their increased maxima;
(3) granting enough to cross exactly the next `N` thresholds raises the
level by exactly `N`, never past level 30, and leaves no further level-up
possible; (4) at the maximum level no grant can level up at all. -/
theorem apply_level_up_grant_spec :
    (∀ (p : PlayerStats) (t : Int), 0 ≤ p.level → p.level < MAX_LEVEL →
      LEVEL_XP (p.level + 1) = some t → p.xp < t →
      apply_level_up (grant p 0) = .ok p)
    ∧ (∀ (p : PlayerStats) (g t1 : Int), 0 ≤ p.level → p.level < MAX_LEVEL →
      LEVEL_XP (p.level + 1) = some t1 → t1 ≤ p.xp + g →
      (p.level + 1 = 30 ∨ ∃ t2, LEVEL_XP (p.level + 2) = some t2 ∧ p.xp + g < t2) →
      apply_level_up (grant p g) = .ok
        { p with
          xp := p.xp + g
          level := p.level + 1
          max_hp := p.max_hp + 5
          hp := p.max_hp + 5
          max_stamina := p.max_stamina + 2
          stamina := p.max_stamina + 2 })
    ∧ (∀ (p : PlayerStats) (g : Int) (N : Nat), 0 ≤ p.level → p.level + N ≤ 30 →
      (∀ k : Int, p.level < k → k ≤ p.level + N →
        ∃ t, LEVEL_XP k = some t ∧ t ≤ p.xp + g) →
      (p.level + (N : Int) = 30 ∨
        ∃ t, LEVEL_XP (p.level + N + 1) = some t ∧ p.xp + g < t) →
      ∃ q, apply_level_up (grant p g) = .ok q ∧ q.level = p.level + N
        ∧ q.level ≤ 30 ∧ can_level_up q = .ok false)
    ∧ (∀ (p : PlayerStats) (g : Int), p.level = MAX_LEVEL →
      apply_level_up (grant p g) = .ok (grant p g)) := by
  refine ⟨?_, ?_, ?_, ?_⟩
  · intro p t h0 hlt ht hxp
    simp only [MAX_LEVEL] at hlt
    have h := apply_level_up_exact 0 (grant p 0) (by simpa [grant] using h0)
      (by simp [grant]; omega)
      (by intro k h1 h2; simp [grant] at h1 h2; omega)
      (by
        right
        refine ⟨t, ?_, ?_⟩
        · simpa [grant] using ht
        · simp [grant]
          omega)
    rw [h]
    cases p
    simp [grant]
  · intro p g t1 h0 hlt ht1 hxp1 hstop
    simp only [MAX_LEVEL] at hlt
    have h := apply_level_up_exact 1 (grant p g) (by simpa [grant] using h0)
      (by simp [grant]; omega)
      (by
        intro k h1 h2
        simp only [grant] at h1 h2 ⊢
        have hk : k = p.level + 1 := by push_cast at h2; omega
        subst hk
        exact ⟨t1, ht1, hxp1⟩)
      (by
        simp only [grant]
        rcases hstop with h30 | ⟨t2, ht2, hxp2⟩
        · left; push_cast; omega
        · right
          refine ⟨t2, ?_, hxp2⟩
          rw [← ht2]
          congr 1
          push_cast
          ring)
    rw [h]
    cases p
    simp only [grant, PlayerStats.mk.injEq]
    norm_num
  · intro p g N h0 hle hall hstop
    have h := apply_level_up_exact N (grant p g) (by simpa [grant] using h0)
      (by simpa [grant] using hle)
      (by intro k h1 h2; simp only [grant] at h1 h2 ⊢; exact hall k h1 h2)
      (by simpa [grant] using hstop)
    refine ⟨_, h, by simp [grant], by simp [grant]; omega, ?_⟩
    unfold can_level_up
    by_cases h30 : p.level + (N : Int) = 30
    · rw [if_pos]
      simp only [grant]
      simp only [MAX_LEVEL]
      omega
    · rcases hstop with h30' | ⟨t, ht, hxp⟩
      · exact absurd h30' h30
      · rw [if_neg (by simp only [grant, MAX_LEVEL]; omega)]
        have harg : ({ grant p g with
            level := (grant p g).level + N
            max_hp := (grant p g).max_hp + 5 * N
            hp := if N = 0 then (grant p g).hp else (grant p g).max_hp + 5 * N
            max_stamina := (grant p g).max_stamina + 2 * N
            stamina := if N = 0 then (grant p g).stamina
              else (grant p g).max_stamina + 2 * N } : PlayerStats).level + 1
            = p.level + N + 1 := by
          simp [grant]
        rw [harg, ht]
        simp only [grant]
        simp [Int.not_le.mpr hxp]
  · intro p g h30
    refine apply_level_up_stop _ ?_
    unfold can_level_up
    rw [if_pos (by simp [grant, h30])]

/-- Witness for the C4 theorem at a concrete level-1 record: a grant of 0
changes nothing (next threshold 100 away), a grant of 100 crosses exactly
one threshold (level 2, fully healed to the increased caps), a grant of
250 crosses exactly two (level 3), and at level 30 no grant levels up. -/
theorem apply_level_up_grant_spec_witness :
    apply_level_up (grant pStats1 0) = .ok pStats1
    ∧ apply_level_up (grant pStats1 100) = .ok
        { pStats1 with
          xp := pStats1.xp + 100
          level := pStats1.level + 1
          max_hp := pStats1.max_hp + 5
          hp := pStats1.max_hp + 5
          max_stamina := pStats1.max_stamina + 2
          stamina := pStats1.max_stamina + 2 }
    ∧ (∃ q, apply_level_up (grant pStats1 250) = .ok q
        ∧ q.level = pStats1.level + (2 : Nat) ∧ q.level ≤ 30
        ∧ can_level_up q = .ok false)
    ∧ apply_level_up (grant pStats30 999) = .ok (grant pStats30 999) := by
  refine ⟨?_, ?_, ?_, ?_⟩
  · exact apply_level_up_grant_spec.1 pStats1 100
      (by decide) (by decide) (by decide) (by decide)
  · exact apply_level_up_grant_spec.2.1 pStats1 100 100
      (by decide) (by decide) (by decide) (by decide)
      (Or.inr ⟨250, by decide, by decide⟩)
  · exact apply_level_up_grant_spec.2.2.1 pStats1 250 2
      (by decide) (by decide)
      (by
        intro k h1 h2
        norm_num [pStats1] at h1 h2
        interval_cases k
        · exact ⟨100, by decide, by decide⟩
        · exact ⟨250, by decide, by decide⟩)
      (Or.inr ⟨450, by decide, by decide⟩)
  · exact apply_level_up_grant_spec.2.2.2 pStats30 999 (by decide)

/-- C3.  Both move-failure paths: a direction absent from the current
room's exit table, and a present direction whose destination id is not a
registered room.  In each case the handler returns the world unchanged (so
the player's room id in particular), emits exactly one error line, to the
mover only, and the two user-facing messages are distinct whether or not
color is enabled. -/
theorem cmd_move_failure_cases :
    (∀ (w : World) (k : String) (s : Sess) (args : List String)
        (direction : String) (room : Room),
      dlookup (roomIdOf w s) w.rooms = some room →
      dlookup direction room.exits = none →
      cmd_move w k s args direction =
        .ok (w, [Ev.send k (colorize "You can't go that way." "error"
          s.color_enabled)], none))
    ∧ (∀ (w : World) (k : String) (s : Sess) (args : List String)
        (direction dest_id : String) (room : Room),
      dlookup (roomIdOf w s) w.rooms = some room →
      dlookup direction room.exits = some dest_id →
      dlookup dest_id w.rooms = none →
      cmd_move w k s args direction =
        .ok (w, [Ev.send k (colorize
          "You feel resistance, as if reality hasn't fully formed that way."
          "error" s.color_enabled)], none))
    ∧ (∀ b : Bool, colorize "You can't go that way." "error" b
        ≠ colorize
          "You feel resistance, as if reality hasn't fully formed that way."
          "error" b) := by
  refine ⟨?_, ?_, ?_⟩
  · intro w k s args direction room h1 h2
    simp only [cmd_move, get_room, h1, h2]
  · intro w k s args direction dest_id room h1 h2 h3
    simp only [cmd_move, get_room, h1, h2, h3]
  · intro b
    cases b <;> decide

/-- Witness for the C3 theorem: Bob in the lobby tries `west` (no such
exit) and, in a world whose lobby has a dangling `east` exit, tries
`east`; both leave the world unchanged and emit one line. -/
theorem cmd_move_failure_cases_witness :
    cmd_move wBob "bob" sBob [] "west" =
      .ok (wBob, [Ev.send "bob" (colorize "You can't go that way." "error"
        true)], none)
    ∧ cmd_move wDang "bob" sBob [] "east" =
      .ok (wDang, [Ev.send "bob" (colorize
        "You feel resistance, as if reality hasn't fully formed that way."
        "error" true)], none) := by
  constructor
  · exact cmd_move_failure_cases.1 wBob "bob" sBob [] "west" roomLobby
      (by decide) (by decide)
  · exact cmd_move_failure_cases.2.1 wDang "bob" sBob [] "east" "void"
      { id := "lobby", name := "The Lobby", description := "A quiet lobby.",
        brief := "Lobby.", exits := [("east", "void")] }
      (by decide) (by decide) (by decide)

/-- The quick look resolves the session's current room, changes nothing,
returns `None`, and sends every line to the looking session itself. -/
theorem cmd_quicklook_spec (w : World) (k : String) (s : Sess) (room : Room)
    (h : dlookup (roomIdOf w s) w.rooms = some room) :
    cmd_quicklook w k s [] = .ok (w,
      (colorize room.name "room_name" s.color_enabled ::
       pyRstrip room.brief ::
       show_room_occupants w k s ++ format_exits w s room).map (Ev.send k),
      none) := by
  simp only [cmd_quicklook, get_room, h]

/-- C2.  The success path of the room-transition protocol, for any session
whose player reference resolves, whose current room is registered, whose
requested direction exists and whose destination is registered: the
handler returns the world with exactly one change (the player's room id),
and its trace is, in order, the leave notices to the other sessions of the
old room, the room-id mutation, the enter notices to the other sessions of
the (post-mutation) new room, the confirmation to the mover, and the
mover's brief room summary (the quick-look trace); no leave or enter
notice is addressed to the mover, and the whole summary goes to the mover
alone. -/
theorem cmd_move_success_ordering :
    ∀ (w : World) (k pk : String) (s : Sess) (p : Player)
      (args : List String) (direction dest_id : String) (room : Room),
    s.playerKey = some pk →
    dlookup pk w.players = some p →
    dlookup p.room_id w.rooms = some room →
    dlookup direction room.exits = some dest_id →
    (dlookup dest_id w.rooms).isSome →
    ∃ (wMoved : World) (leaves enters ql : List Ev),
      wMoved = { w with
          players := dinsert pk { p with room_id := dest_id } w.players }
      ∧ leaves = (sessions_in_room w p.room_id).filterMap (fun kv =>
          if kv.1 = k then none
          else some (Ev.send kv.1 (colorize p.name "player_name"
            kv.2.color_enabled ++ " leaves the room.")))
      ∧ enters = (sessions_in_room wMoved dest_id).filterMap (fun kv =>
          if kv.1 = k then none
          else some (Ev.send kv.1 (colorize p.name "player_name"
            kv.2.color_enabled ++ " enters the room.")))
      ∧ cmd_move w k s args direction = .ok (wMoved,
          leaves ++ Ev.setRoom k dest_id :: enters
            ++ Ev.send k (colorize ("You go " ++ direction ++ ".") "system"
              s.color_enabled) :: ql,
          none)
      ∧ cmd_quicklook wMoved k s [] = .ok (wMoved, ql, none)
      ∧ (∀ ev ∈ leaves ++ enters, ∀ t, ev ≠ Ev.send k t)
      ∧ (∀ ev ∈ ql, ∃ t, ev = Ev.send k t) := by
  intro w k pk s p args direction dest_id room hpk hpl hroom hdir hdest
  obtain ⟨destRoom, hdestRoom⟩ := Option.isSome_iff_exists.mp hdest
  have hPlayerOf : playerOf w s = some p := by
    simp [playerOf, hpk, hpl]
  have hRoomId : roomIdOf w s = p.room_id := by
    simp [roomIdOf, hPlayerOf]
  have hset : setRoomId w s dest_id =
      { w with players := dinsert pk { p with room_id := dest_id } w.players } := by
    simp [setRoomId, hpk, hpl]
  have hPlayerOf2 : playerOf
      { w with players := dinsert pk { p with room_id := dest_id } w.players } s
      = some { p with room_id := dest_id } := by
    simp [playerOf, hpk, dlookup_dinsert_self]
  have hRoomId2 : roomIdOf
      { w with players := dinsert pk { p with room_id := dest_id } w.players } s
      = dest_id := by
    simp [roomIdOf, hPlayerOf2]
  have hql := cmd_quicklook_spec
    { w with players := dinsert pk { p with room_id := dest_id } w.players }
    k s destRoom (by rw [hRoomId2]; exact hdestRoom)
  refine ⟨_, _, _, _, rfl, rfl, rfl, ?_, hql, ?_, ?_⟩
  · simp only [cmd_move, get_room, hRoomId, hroom, hdir, hdestRoom, hPlayerOf,
      hset, hRoomId2, hql, Option.isSome_some, if_true]
    simp
  · intro ev hev t
    simp only [List.mem_append, List.mem_filterMap] at hev
    rcases hev with ⟨kv, _, hkv⟩ | ⟨kv, _, hkv⟩ <;>
    · by_cases hk : kv.1 = k
      · simp [hk] at hkv
      · simp only [hk, if_false, Option.some.injEq] at hkv
        subst hkv
        simp [hk]
  · intro ev hev
    simp only [List.mem_map] at hev
    obtain ⟨t, _, rfl⟩ := hev
    exact ⟨t, rfl⟩

/-- Witness for the C2 theorem: Bob moves north from the lobby while Bo is
already in the hall; the trace carries the mutation marker between the
notices and the confirmation, the summary is the quick look of the hall,
and the single enter notice goes to Bo. -/
theorem cmd_move_success_ordering_witness :
    ∃ (wMoved : World) (leaves enters ql : List Ev),
      cmd_move wTwo "bob" sBob [] "north" = .ok (wMoved,
        leaves ++ Ev.setRoom "bob" "hall" :: enters
          ++ Ev.send "bob" (colorize ("You go " ++ "north" ++ ".") "system"
            sBob.color_enabled) :: ql,
        none)
      ∧ cmd_quicklook wMoved "bob" sBob [] = .ok (wMoved, ql, none)
      ∧ leaves = []
      ∧ enters = [Ev.send "bo" (colorize "Bob" "player_name" true
          ++ " enters the room.")] := by
  obtain ⟨wM, l, e, q, hw, hl, he, hmv, hql, _, _⟩ :=
    cmd_move_success_ordering wTwo "bob" "bob" sBob pBob [] "north" "hall"
      roomLobby rfl (by decide) (by decide) (by decide) (by decide)
  refine ⟨wM, l, e, q, hmv, hql, ?_, ?_⟩
  · rw [hl]; decide
  · rw [hw] at he
    rw [he]; decide

/-- A move attempt never touches the NPC object's wander cursor. -/
theorem move_npc_to_wander_index (w : World) (npc : NPC) (d : String) :
    ((move_npc_to w npc d).2.1).wander_index = npc.wander_index := by
  unfold move_npc_to
  split
  · rfl
  · split <;> rfl

/-- C10, counterexample.  The claim says the path-move step always resets
an out-of-range cursor to 0 before indexing, so the path access is always
in bounds, for any (possibly out-of-range) starting cursor value.  The
reset only catches cursors that are at least the path length; a cursor
below `-len(path)` passes the check and the Python list access raises
`IndexError`. -/
theorem npc_path_negative_cursor_indexerror :
    npc_move_along_path wBob npcNeg = .error .indexError := by decide

/-- C10, as amended: for every non-negative starting cursor the step
resets a cursor that is at least the path length to 0 before indexing
(first conjunct: the access at the reset position succeeds), the step
cannot raise, and afterwards the cursor again satisfies
`0 ≤ wander_index < len(wander_path)`. -/
theorem npc_path_cursor_safety :
    ∀ (w : World) (npc : NPC), npc.wander_path ≠ [] → 0 ≤ npc.wander_index →
    ∃ (dest : String) (w' : World) (n' : NPC) (evs : List Ev),
      pyGet npc.wander_path
        (if npc.wander_index ≥ (npc.wander_path.length : Int) then 0
         else npc.wander_index) = .ok dest
      ∧ npc_move_along_path w npc = .ok (w', n', evs)
      ∧ n'.wander_index =
          ((if npc.wander_index ≥ (npc.wander_path.length : Int) then 0
            else npc.wander_index) + 1) % (npc.wander_path.length : Int)
      ∧ 0 ≤ n'.wander_index
      ∧ n'.wander_index < (npc.wander_path.length : Int) := by
  intro w npc hne hnn
  have hlen : 0 < npc.wander_path.length := List.length_pos.mpr hne
  set idx : Int :=
    if npc.wander_index ≥ (npc.wander_path.length : Int) then 0
    else npc.wander_index with hidxdef
  have hbound : 0 ≤ idx ∧ idx < (npc.wander_path.length : Int) := by
    rw [hidxdef]
    split <;> omega
  have hget : pyGet npc.wander_path idx
      = .ok (npc.wander_path.get ⟨idx.toNat, by omega⟩) := by
    simp only [pyGet]
    rw [if_neg (by omega : ¬ idx < 0), if_pos hbound.1,
      List.get?_eq_get (show idx.toNat < npc.wander_path.length by omega)]
  set npc1 : NPC :=
    { npc with wander_index := (idx + 1) % (npc.wander_path.length : Int) }
    with hnpc1
  set w1 : World := { w with npcs := dinsert npc.id npc1 w.npcs } with hw1
  rcases hM : move_npc_to w1 npc1 (npc.wander_path.get ⟨idx.toNat, by omega⟩)
    with ⟨w2, n2, evs2⟩
  have hidx2 : n2.wander_index = (idx + 1) % (npc.wander_path.length : Int) := by
    have h := move_npc_to_wander_index w1 npc1
      (npc.wander_path.get ⟨idx.toNat, by omega⟩)
    rw [hM] at h
    rw [h, hnpc1]
  refine ⟨_, w2, n2, evs2, hget, ?_, hidx2, ?_, ?_⟩
  · simp only [npc_move_along_path, if_neg hne]
    rw [hget]
    simp only [← hnpc1, ← hw1]
    rw [hM]
  · rw [hidx2]
    exact Int.emod_nonneg _ (by omega)
  · rw [hidx2]
    exact Int.emod_lt_of_pos _ (by exact_mod_cast hlen)

/-- Witness for the amended C10 theorem at a cursor of 5 on a 3-entry
path: the cursor is reset, the access succeeds, and the new cursor is 1. -/
theorem npc_path_cursor_safety_witness :
    ∃ (dest : String) (w' : World) (n' : NPC) (evs : List Ev),
      pyGet npcBig.wander_path
        (if npcBig.wander_index ≥ (npcBig.wander_path.length : Int) then 0
         else npcBig.wander_index) = .ok dest
      ∧ npc_move_along_path wBob npcBig = .ok (w', n', evs)
      ∧ n'.wander_index =
          ((if npcBig.wander_index ≥ (npcBig.wander_path.length : Int) then 0
            else npcBig.wander_index) + 1) % (npcBig.wander_path.length : Int)
      ∧ 0 ≤ n'.wander_index
      ∧ n'.wander_index < (npcBig.wander_path.length : Int) :=
  npc_path_cursor_safety wBob npcBig (by decide) (by decide)

/-- A move attempt either leaves the NPC object's room id unchanged with
no output (same-room or unregistered destination), or moves it to a
registered destination different from its current room. -/
theorem move_npc_to_spec (w : World) (npc : NPC) (d : String)
    (w' : World) (n' : NPC) (evs : List Ev)
    (h : move_npc_to w npc d = (w', n', evs)) :
    (n'.room_id = npc.room_id ∧ evs = []) ∨
    ((dlookup d w.rooms).isSome ∧ d ≠ npc.room_id ∧ n'.room_id = d) := by
  unfold move_npc_to at h
  by_cases hd : d = npc.room_id
  · rw [if_pos hd] at h
    obtain ⟨rfl, rfl, rfl⟩ := Prod.mk.injEq .. ▸ (by
      simpa using h : w = w' ∧ npc = n' ∧ ([] : List Ev) = evs)
    exact Or.inl ⟨rfl, rfl⟩
  · rw [if_neg hd] at h
    cases hr : dlookup d w.rooms with
    | none =>
      rw [hr] at h
      obtain ⟨rfl, rfl, rfl⟩ := (by
        simpa using h : w = w' ∧ npc = n' ∧ ([] : List Ev) = evs)
      exact Or.inl ⟨rfl, rfl⟩
    | some room =>
      rw [hr] at h
      simp only [Prod.mk.injEq] at h
      obtain ⟨-, hn, -⟩ := h
      refine Or.inr ⟨by simp [hr], hd, ?_⟩
      rw [← hn]

/-- C7.  For every NPC, every possible random choice, and one tick step
over that NPC: if the step completes, then either the NPC object's room id
is unchanged and not a single line was sent (tethered, mode `none` or
unrecognized, empty path, same-room destination, unregistered destination),
or the NPC is untethered, its normalized wander mode is `path` or
`global`, and it moved to a registered room id different from the one it
occupied. -/
theorem npc_step_room_change_only_if :
    ∀ (w : World) (npc : NPC) (pick : Nat) (w' : World) (n' : NPC)
      (evs : List Ev),
    npc_step w npc pick = .ok (w', n', evs) →
    (n'.room_id = npc.room_id ∧ evs = []) ∨
    (npc.tethered = false
      ∧ (pyLower (if npc.wander_mode = "" then "none" else npc.wander_mode)
          = "path"
        ∨ pyLower (if npc.wander_mode = "" then "none" else npc.wander_mode)
          = "global")
      ∧ (dlookup n'.room_id w.rooms).isSome
      ∧ n'.room_id ≠ npc.room_id) := by
  intro w npc pick w' n' evs h
  unfold npc_step at h
  by_cases ht : npc.tethered
  · rw [if_pos ht] at h
    simp only [Except.ok.injEq, Prod.mk.injEq] at h
    obtain ⟨-, rfl, rfl⟩ := h
    exact Or.inl ⟨rfl, rfl⟩
  · rw [if_neg ht] at h
    simp only at h
    by_cases hm1 : pyLower (if npc.wander_mode = "" then "none"
        else npc.wander_mode) = "none"
    · rw [if_pos hm1] at h
      simp only [Except.ok.injEq, Prod.mk.injEq] at h
      obtain ⟨-, rfl, rfl⟩ := h
      exact Or.inl ⟨rfl, rfl⟩
    · rw [if_neg hm1] at h
      by_cases hm2 : pyLower (if npc.wander_mode = "" then "none"
          else npc.wander_mode) = "path"
      · rw [if_pos hm2] at h
        unfold npc_move_along_path at h
        by_cases hp : npc.wander_path = []
        · rw [if_pos hp] at h
          simp only [Except.ok.injEq, Prod.mk.injEq] at h
          obtain ⟨-, rfl, rfl⟩ := h
          exact Or.inl ⟨rfl, rfl⟩
        · rw [if_neg hp] at h
          dsimp only at h
          cases hg : pyGet npc.wander_path
              (if npc.wander_index ≥ (npc.wander_path.length : Int) then 0
               else npc.wander_index) with
          | error e => rw [hg] at h; exact absurd h (by simp)
          | ok dest =>
            rw [hg] at h
            simp only [Except.ok.injEq] at h
            have hspec := move_npc_to_spec _ _ _ _ _ _ h
            rcases hspec with ⟨h1, h2⟩ | ⟨h1, h2, h3⟩
            · exact Or.inl ⟨h1, h2⟩
            · exact Or.inr ⟨by simpa using ht, Or.inl hm2,
                by simpa [h3] using h1, by simpa [h3] using h2⟩
      · by_cases hm3 : pyLower (if npc.wander_mode = "" then "none"
            else npc.wander_mode) = "global"
        · rw [if_neg hm2, if_pos hm3] at h
          simp only [Except.ok.injEq] at h
          unfold npc_move_global at h
          cases hr : dlookup npc.room_id w.rooms with
          | none =>
            rw [hr] at h
            simp only [Prod.mk.injEq] at h
            obtain ⟨-, rfl, rfl⟩ := h
            exact Or.inl ⟨rfl, rfl⟩
          | some room =>
            rw [hr] at h
            dsimp only at h
            by_cases hex : room.exits = []
            · rw [if_pos hex] at h
              simp only [Prod.mk.injEq] at h
              obtain ⟨-, rfl, rfl⟩ := h
              exact Or.inl ⟨rfl, rfl⟩
            · rw [if_neg hex] at h
              have hspec := move_npc_to_spec _ _ _ _ _ _ h
              rcases hspec with ⟨h1, h2⟩ | ⟨h1, h2, h3⟩
              · exact Or.inl ⟨h1, h2⟩
              · exact Or.inr ⟨by simpa using ht, Or.inr hm3,
                  by simpa [h3] using h1, by simpa [h3] using h2⟩
        · rw [if_neg hm2, if_neg hm3] at h
          simp only [Except.ok.injEq, Prod.mk.injEq] at h
          obtain ⟨-, rfl, rfl⟩ := h
          exact Or.inl ⟨rfl, rfl⟩

/-- Witness for the C7 theorem at a concrete tethered NPC, whose step
completes as `.ok (wBob, npcTether, [])`: the disjunction holds there. -/
theorem npc_step_room_change_only_if_witness :
    (npcTether.room_id = npcTether.room_id ∧ ([] : List Ev) = [])
    ∨ (npcTether.tethered = false
      ∧ (pyLower (if npcTether.wander_mode = "" then "none"
          else npcTether.wander_mode) = "path"
        ∨ pyLower (if npcTether.wander_mode = "" then "none"
          else npcTether.wander_mode) = "global")
      ∧ (dlookup npcTether.room_id wBob.rooms).isSome
      ∧ npcTether.room_id ≠ npcTether.room_id) :=
  npc_step_room_change_only_if wBob npcTether 0 wBob npcTether [] (by decide)

theorem dinsert_dinsert {α : Type} (k : String) (v v' : α)
    (l : List (String × α)) :
    dinsert k v (dinsert k v' l) = dinsert k v l := by
  induction l with
  | nil => simp [dinsert]
  | cons hd tl ih =>
    by_cases h : hd.1 = k
    · simp [dinsert, h]
    · simp [dinsert, h, ih]

/-- One tick step of an untethered path NPC whose cursor is in range and
whose destination is registered: the NPC ends up at the destination (also
when it was already there) with the cursor advanced cyclically, and the
world is updated at its id alone. -/
theorem npc_step_path_spec (w : World) (n : NPC) (pick : Nat) (dest : String)
    (ht : n.tethered = false) (hm : n.wander_mode = "path")
    (hne : n.wander_path ≠ []) (hlt : n.wander_index < (n.wander_path.length : Int))
    (hget : pyGet n.wander_path n.wander_index = .ok dest)
    (hreg : (dlookup dest w.rooms).isSome) :
    ∃ evs, npc_step w n pick = .ok
      ({ w with npcs := dinsert n.id (npcAfterPathStep n dest) w.npcs },
        npcAfterPathStep n dest, evs) := by
  have hmode : pyLower (if n.wander_mode = "" then "none" else n.wander_mode)
      = "path" := by
    rw [hm]
    decide
  set npc1 : NPC :=
    { n with wander_index := (n.wander_index + 1) % (n.wander_path.length : Int) }
    with hnpc1
  set w1 : World := { w with npcs := dinsert n.id npc1 w.npcs } with hw1
  have h1 : npc_step w n pick = .ok (move_npc_to w1 npc1 dest) := by
    unfold npc_step
    rw [if_neg (by simp [ht])]
    dsimp only
    rw [hmode]
    rw [if_neg (by decide : ¬("path" : String) = "none"),
      if_pos (rfl : ("path" : String) = "path")]
    unfold npc_move_along_path
    rw [if_neg hne]
    dsimp only
    rw [if_neg (by omega : ¬ n.wander_index ≥ (n.wander_path.length : Int)), hget]
  by_cases hd : dest = n.room_id
  · have h2 : move_npc_to w1 npc1 dest = (w1, npc1, []) := by
      unfold move_npc_to
      rw [if_pos (show dest = npc1.room_id from hd)]
    have h3 : npcAfterPathStep n dest = npc1 := by
      unfold npcAfterPathStep
      rw [hnpc1]
      cases n
      simp_all
    refine ⟨[], ?_⟩
    rw [h1, h2, h3]
  · rcases hMv : move_npc_to w1 npc1 dest with ⟨w2, n2, e2⟩
    obtain ⟨r, hr⟩ := Option.isSome_iff_exists.mp hreg
    have hMv2 := hMv
    unfold move_npc_to at hMv2
    rw [if_neg (show ¬ dest = npc1.room_id from hd)] at hMv2
    dsimp only at hMv2
    rw [show dlookup dest w1.rooms = some r from hr] at hMv2
    dsimp only at hMv2
    simp only [Prod.mk.injEq] at hMv2
    obtain ⟨hw2, hn2, he2⟩ := hMv2
    refine ⟨e2, ?_⟩
    rw [h1, hMv, ← hw2, ← hn2]
    simp only [dinsert_dinsert]
    rfl

/-- `npc_tick` over a world holding exactly one NPC, an untethered path
wanderer with an in-range cursor and a registered destination. -/
theorem npc_tick_single_path (w : World) (n : NPC) (pickFn : String → Nat)
    (dest : String)
    (hw : w.npcs = [(n.id, n)])
    (ht : n.tethered = false) (hm : n.wander_mode = "path")
    (hne : n.wander_path ≠ []) (hlt : n.wander_index < (n.wander_path.length : Int))
    (hget : pyGet n.wander_path n.wander_index = .ok dest)
    (hreg : (dlookup dest w.rooms).isSome) :
    ∃ evs, npc_tick w pickFn = .ok
      ({ w with npcs := [(n.id, npcAfterPathStep n dest)] }, evs) := by
  obtain ⟨evs, hstep⟩ := npc_step_path_spec w n (pickFn n.id) dest
    ht hm hne hlt hget hreg
  refine ⟨evs, ?_⟩
  unfold npc_tick
  rw [hw]
  simp only [List.foldlM, bind, Except.bind, pure, Except.pure]
  rw [hw] at hstep
  rw [hstep]
  simp [dinsert]

/-- C6.  A non-tethered NPC with wander mode `path` and path `[A, B, C]`
whose cursor starts at 0, alone in a world where the three rooms are
registered: four successive ticks take it to A (cursor 1), then B
(cursor 2), then C (cursor wrapped to 0), then A again (cursor 1).  And a
path NPC with an empty wander path is left exactly as it was by a tick,
with no output. -/
theorem npc_path_cycle :
    (∀ (w : World) (n : NPC) (A B C : String) (pickFn : String → Nat),
      w.npcs = [(n.id, n)] →
      n.tethered = false →
      n.wander_mode = "path" →
      n.wander_path = [A, B, C] →
      n.wander_index = 0 →
      (dlookup A w.rooms).isSome →
      (dlookup B w.rooms).isSome →
      (dlookup C w.rooms).isSome →
      ∃ e1 e2 e3 e4,
        npc_tick w pickFn = .ok
          ({ w with npcs := [(n.id, { n with room_id := A, wander_index := 1 })] }, e1)
        ∧ npc_tick
            { w with npcs := [(n.id, { n with room_id := A, wander_index := 1 })] }
            pickFn = .ok
          ({ w with npcs := [(n.id, { n with room_id := B, wander_index := 2 })] }, e2)
        ∧ npc_tick
            { w with npcs := [(n.id, { n with room_id := B, wander_index := 2 })] }
            pickFn = .ok
          ({ w with npcs := [(n.id, { n with room_id := C, wander_index := 0 })] }, e3)
        ∧ npc_tick
            { w with npcs := [(n.id, { n with room_id := C, wander_index := 0 })] }
            pickFn = .ok
          ({ w with npcs := [(n.id, { n with room_id := A, wander_index := 1 })] }, e4))
    ∧ (∀ (w : World) (n : NPC) (pickFn : String → Nat),
      w.npcs = [(n.id, n)] →
      n.tethered = false →
      n.wander_mode = "path" →
      n.wander_path = [] →
      npc_tick w pickFn = .ok (w, [])) := by
  constructor
  · intro w n A B C pickFn hw ht hm hpath hidx hA hB hC
    obtain ⟨nid, nname, ndesc, nroom, nhome, nteth, nwm, nwp, nwi, nag⟩ := n
    simp only at ht hm hpath hidx hw
    subst ht
    subst hm
    subst hpath
    subst hidx
    obtain ⟨e1, h1⟩ := npc_tick_single_path w
      ⟨nid, nname, ndesc, nroom, nhome, false, "path", [A, B, C], 0, nag⟩
      pickFn A hw rfl rfl (by simp) (by norm_num) rfl hA
    obtain ⟨e2, h2⟩ := npc_tick_single_path
      { w with npcs := [(nid,
          ⟨nid, nname, ndesc, A, nhome, false, "path", [A, B, C], 1, nag⟩)] }
      ⟨nid, nname, ndesc, A, nhome, false, "path", [A, B, C], 1, nag⟩
      pickFn B rfl rfl rfl (by simp) (by norm_num) rfl hB
    obtain ⟨e3, h3⟩ := npc_tick_single_path
      { w with npcs := [(nid,
          ⟨nid, nname, ndesc, B, nhome, false, "path", [A, B, C], 2, nag⟩)] }
      ⟨nid, nname, ndesc, B, nhome, false, "path", [A, B, C], 2, nag⟩
      pickFn C rfl rfl rfl (by simp) (by norm_num) rfl hC
    obtain ⟨e4, h4⟩ := npc_tick_single_path
      { w with npcs := [(nid,
          ⟨nid, nname, ndesc, C, nhome, false, "path", [A, B, C], 0, nag⟩)] }
      ⟨nid, nname, ndesc, C, nhome, false, "path", [A, B, C], 0, nag⟩
      pickFn A rfl rfl rfl (by simp) (by norm_num) rfl hA
    simp only [npcAfterPathStep] at h1 h2 h3 h4
    norm_num at h1 h2 h3 h4
    exact ⟨e1, e2, e3, e4, h1, h2, h3, h4⟩
  · intro w n pickFn hw ht hm hpath
    have hstep : npc_step w n (pickFn n.id) = .ok (w, n, []) := by
      unfold npc_step
      rw [if_neg (by simp [ht])]
      dsimp only
      rw [show pyLower (if n.wander_mode = "" then "none" else n.wander_mode)
        = "path" from by rw [hm]; decide]
      rw [if_neg (by decide : ¬("path" : String) = "none"),
        if_pos (rfl : ("path" : String) = "path")]
      unfold npc_move_along_path
      rw [if_pos hpath]
    unfold npc_tick
    rw [hw]
    simp only [List.foldlM, bind, Except.bind, pure, Except.pure, hstep]
    rfl

/-- Witness for the C6 theorem at the concrete walker: the four ticks
visit a, b, c, then a again, with the cursor cycling 1, 2, 0, 1. -/
theorem npc_path_cycle_witness :
    ∃ e1 e2 e3 e4,
      npc_tick wWalk (fun _ => 0) = .ok
        ({ wWalk with npcs := [(npcWalker.id,
            { npcWalker with room_id := "a", wander_index := 1 })] }, e1)
      ∧ npc_tick
          { wWalk with npcs := [(npcWalker.id,
              { npcWalker with room_id := "a", wander_index := 1 })] }
          (fun _ => 0) = .ok
        ({ wWalk with npcs := [(npcWalker.id,
            { npcWalker with room_id := "b", wander_index := 2 })] }, e2)
      ∧ npc_tick
          { wWalk with npcs := [(npcWalker.id,
              { npcWalker with room_id := "b", wander_index := 2 })] }
          (fun _ => 0) = .ok
        ({ wWalk with npcs := [(npcWalker.id,
            { npcWalker with room_id := "c", wander_index := 0 })] }, e3)
      ∧ npc_tick
          { wWalk with npcs := [(npcWalker.id,
              { npcWalker with room_id := "c", wander_index := 0 })] }
          (fun _ => 0) = .ok
        ({ wWalk with npcs := [(npcWalker.id,
            { npcWalker with room_id := "a", wander_index := 1 })] }, e4) :=
  npc_path_cycle.1 wWalk npcWalker "a" "b" "c" (fun _ => 0)
    rfl rfl rfl rfl rfl (by decide) (by decide) (by decide)
